import Mathlib

/-!
# Irrigation controller: build configuration and MQTT boundary

A shallow embedding of `irrigation_controller/controller/config.h` and
`irrigation_controller/controller/network.cpp`.

* Preprocessor macros of `config.h` become Lean definitions of the same name.
  The four user-set switches at the top of the header are the fields of
  `BuildConfig`; the derived macros (names ending in `_`) are functions of it.
* Calls into the Arduino, PubSubClient and services layers are recorded as an
  ordered trace of `Action`s.
* The broker is an oracle telling whether the i-th call of
  `mqtt_client.connect` succeeds.
-/

namespace IrrigationController

/-! ## config.h: user-set switches -/

/-- The key settings of `config.h` (lines 17-48). `RESEVOIR_MODE` is an
integer macro, the three others are boolean macros. -/
structure BuildConfig where
  RESEVOIR_MODE : Int
  USING_SOURCE_FLOW : Bool
  USING_DRAIN_VALVE : Bool
  USING_PRESSURE_SENSOR : Bool
  deriving DecidableEq

/-- The values `config.h` ships with: mode 1, no source flow sensor, a drain
valve and a pressure sensor declared. -/
def shippedConfig : BuildConfig :=
  { RESEVOIR_MODE := 1
    USING_SOURCE_FLOW := false
    USING_DRAIN_VALVE := true
    USING_PRESSURE_SENSOR := true }

/-! ## config.h: automatically configured flags (lines 165-169) -/

/-- Defined as `((RESEVOIR_MODE == 1 || RESEVOIR_MODE == 3) ? true : false)`. -/
def USING_SOURCE_ (b : BuildConfig) : Bool :=
  if (b.RESEVOIR_MODE == 1 || b.RESEVOIR_MODE == 3) then true else false

/-- Defined as `((RESEVOIR_MODE == 2 || RESEVOIR_MODE == 3) ? true : false)`. -/
def USING_TANK_ (b : BuildConfig) : Bool :=
  if (b.RESEVOIR_MODE == 2 || b.RESEVOIR_MODE == 3) then true else false

/-- Defined as `((USING_TANK_ && USING_DRAIN_VALVE) ? true: false)`. -/
def USING_DRAIN_VALVE_ (b : BuildConfig) : Bool :=
  if (USING_TANK_ b && b.USING_DRAIN_VALVE) then true else false

/-- Defined as `((USING_TANK_ || USING_SOURCE_FLOW) ? true: false)`. -/
def USING_FLOW_SENSOR_ (b : BuildConfig) : Bool :=
  if (USING_TANK_ b || b.USING_SOURCE_FLOW) then true else false

/-- Defined as `((USING_TANK_ && USING_PRESSURE_SENSOR) ? true: false)`. -/
def USING_PRESSURE_SENSOR_ (b : BuildConfig) : Bool :=
  if (USING_TANK_ b && b.USING_PRESSURE_SENSOR) then true else false

/-! ## config.h: MQTT network and topic constants (lines 68-90) -/

def MQTT_SERVER_DOMAIN_DEFAULT : String := "192.168.0.195"
def MQTT_SERVER_PORT_DEFAULT : String := "1883"
def MQTT_ID_DEFAULT : String := "irrigation_controller1"
def MQTT_USERNAME_DEFAULT : String := "username"
def MQTT_PASSWORD_DEFAULT : String := "VerdanTech-Devices"
def MQTT_RETRY_TIMEOUT_SECONDS : Int := 300

def BASE_TOPIC : String := "irrigation_controller1/"
def DISPENSE_ACTIVATE_TOPIC : String := "dispense/activate"
def DEACTIVATE_TOPIC : String := "deactivate"
def RESTART_TOPIC : String := "restart"
def CONFIG_CHANGE_TOPIC : String := "config/change"
def SETTINGS_RESET_TOPIC : String := "config/settings_reset"
def DRAIN_ACTIVATE_TOPIC : String := "drain/activate"

/-! ## config.h: derived MQTT topics (lines 181-191)

Adjacent string literals are concatenated by the compiler. A topic that is
`NULL` in the header is `none` here. -/

def DISPENSE_ACTIVATE_TOPIC_ : String := BASE_TOPIC ++ DISPENSE_ACTIVATE_TOPIC
def DEACTIVATE_TOPIC_ : String := BASE_TOPIC ++ DEACTIVATE_TOPIC
def RESTART_TOPIC_ : String := BASE_TOPIC ++ RESTART_TOPIC
def CONFIG_CHANGE_TOPIC_ : String := BASE_TOPIC ++ CONFIG_CHANGE_TOPIC
def SETTINGS_RESET_TOPIC_ : String := BASE_TOPIC ++ SETTINGS_RESET_TOPIC

/-- Defined as `(USING_DRAIN_VALVE_ ? (BASE_TOPIC DRAIN_ACTIVATE_TOPIC) : NULL)`. -/
def DRAIN_ACTIVATE_TOPIC_ (b : BuildConfig) : Option String :=
  if USING_DRAIN_VALVE_ b then some (BASE_TOPIC ++ DRAIN_ACTIVATE_TOPIC) else none

/-! ## C strings -/

/-- The terminator of a C string. -/
def NUL : Char := Char.ofNat 0

/-- The string a `char` buffer denotes: its characters before the first
terminator. -/
def cstr (s : String) : String :=
  String.mk (s.data.takeWhile (fun c => c != NUL))

/-- Character-wise `strcmp` over two buffers; reading at the end of a buffer
reads its terminator. The result is zero, or the difference of the first pair
of characters that differ. A topic is compared character by character, which
for the test against zero agrees with the byte-wise comparison of the UTF-8
encodings. -/
def strcmpChars : List Char → List Char → Int
  | [], [] => 0
  | [], d :: _ => 0 - (d.toNat : Int)
  | c :: _, [] => (c.toNat : Int) - 0
  | c :: cs, d :: ds =>
    if c != d then (c.toNat : Int) - (d.toNat : Int)
    else if c == NUL then 0
    else strcmpChars cs ds

/-- The `strcmp(a, b)` of `<cstring>`. -/
def strcmp (a b : String) : Int := strcmpChars a.data b.data

/-! ## Effects of network.cpp -/

/-- One observable call made by `network.cpp` into the libraries and the
services layer. A payload is its bytes; `len` is passed along unchanged. -/
inductive Action where
  | print (s : String)
  | println (s : String)
  | deserializeJson (payload : List Nat) (len : Nat)
  | dispense_activate (payload : List Nat) (len : Nat)
  | deactivate
  | config_change (payload : List Nat) (len : Nat)
  | drain_activate (payload : List Nat) (len : Nat)
  | setServer (domain : String) (port : Int)
  | connect (id username password : String)
  | delay (ms : Nat)
  | subscribe (topic : String)
  deriving DecidableEq

/-- Whether an action is a call of one of the four command handlers of the
services layer. -/
def Action.isHandler : Action → Bool
  | .dispense_activate _ _ => true
  | .deactivate => true
  | .config_change _ _ => true
  | .drain_activate _ _ => true
  | _ => false

/-- The handler calls of a trace, in order. -/
def handlerCalls (tr : List Action) : List Action := tr.filter Action.isHandler

/-- The line `on_message` prints for a topic no handler took. -/
def unhandledLine : Action := Action.println "Topic is unhandled"

/-! ## network.cpp: on_message (lines 173-210) -/

/-- The two debug prints and the JSON decoding that open `on_message`
(lines 176-181). -/
def on_message_prologue (topic : String) (payload : List Nat) (len : Nat) : List Action :=
  [Action.print "Recieved a message in: ", Action.println topic,
   Action.deserializeJson payload len]

/-- The dispatch of `on_message` (lines 184-208): four independent `if`s
sharing the flag `handled_topic`, then the report of an unhandled topic.
The drain test is short-circuited, so `strcmp` never sees the `NULL` topic. -/
def on_message_dispatch (b : BuildConfig) (topic : String) (payload : List Nat) (len : Nat) :
    List Action :=
  let out : List Action := []
  let handled_topic := false
  let (out, handled_topic) :=
    if strcmp topic DISPENSE_ACTIVATE_TOPIC_ == 0 then
      (out ++ [Action.dispense_activate payload len], true)
    else (out, handled_topic)
  let (out, handled_topic) :=
    if strcmp topic DEACTIVATE_TOPIC_ == 0 then
      (out ++ [Action.deactivate], true)
    else (out, handled_topic)
  let (out, handled_topic) :=
    if strcmp topic CONFIG_CHANGE_TOPIC_ == 0 then
      (out ++ [Action.config_change payload len], true)
    else (out, handled_topic)
  let (out, handled_topic) :=
    match USING_DRAIN_VALVE_ b, DRAIN_ACTIVATE_TOPIC_ b with
    | true, some drain_topic =>
      if strcmp topic drain_topic == 0 then
        (out ++ [Action.drain_activate payload len], true)
      else (out, handled_topic)
    | _, _ => (out, handled_topic)
  if !handled_topic then out ++ [unhandledLine] else out

/-- The callback `void on_message(const char topic[], byte* payload, unsigned int len)`:
the trace of calls it makes. -/
def on_message (b : BuildConfig) (topic : String) (payload : List Nat) (len : Nat) :
    List Action :=
  on_message_prologue topic payload len ++ on_message_dispatch b topic payload len

/-! ## config.h: runtime defaults (lines 114-158)

A floating literal is read as the exact rational it spells. -/

def DATA_RESOLUTION_L_DEFAULT : ℚ := 0.2
def STATIC_FLOW_RATE_DEFAULT : ℚ := 12.45
def PULSES_PER_L_DEFAULT : ℚ := 1265.289
def MAX_FLOW_RATE_DEFAULT : Int := 30
def MIN_FLOW_RATE_DEFAULT : ℚ := 0.2
def TANK_TIMEOUT_DEFAULT : Int := 5000
def TANK_SHAPE_DEFAULT : Int := 2
def TANK_DIMENSION_1_DEFAULT : ℚ := 0.4
def TANK_DIMENSION_2_DEFAULT : ℚ := 1.2
def TANK_DIMENSION_3_DEFAULT : Int := 0
def PRESSURE_REPORT_MODE : Int := 3

/-! ## Conversions performed by the assignments in the constructors -/

/-- Assigning a floating value to an `int`: the fractional part is discarded
(truncation toward zero). -/
def int_of_double (q : ℚ) : Int := if 0 ≤ q then ⌊q⌋ else ⌈q⌉

/-- Assigning a floating literal to a `float` field, the value read as the
exact rational (binary rounding is not modelled). -/
def float_of_double (q : ℚ) : ℚ := q

/-- Assigning an integer literal to a `float` field. -/
def float_of_int (i : Int) : ℚ := (i : ℚ)

/-- The cast `(int)p` of a data pointer on the 32-bit target: the address,
reinterpreted as a signed 32-bit integer. -/
def int_of_pointer (addr : Nat) : Int :=
  let a : Nat := addr % 2 ^ 32
  if a < 2 ^ 31 then (a : Int) else (a : Int) - 2 ^ 32

/-! ## config.h: namespace conf (lines 197-273) -/

/-- The `struct MQTTConfig`: five `char` buffers, each holding a C string. -/
structure MQTTConfig where
  domain : String
  port : String
  id : String
  username : String
  password : String
  deriving DecidableEq

/-- Offset of the member `port` inside `MQTTConfig`: it follows
`char domain[100]`. -/
def MQTTConfig.port_offset : Nat := 100

/-- The constructor `MQTTConfig()`: every buffer receives its default by `strcpy`. -/
def MQTTConfig.default : MQTTConfig :=
  { domain := MQTT_SERVER_DOMAIN_DEFAULT
    port := MQTT_SERVER_PORT_DEFAULT
    id := MQTT_ID_DEFAULT
    username := MQTT_USERNAME_DEFAULT
    password := MQTT_PASSWORD_DEFAULT }

/-- The `struct ServicesConfig`: the field is declared `int`. -/
structure ServicesConfig where
  data_resolution_l : Int
  deriving DecidableEq

/-- The constructor `ServicesConfig()`: `data_resolution_l = DATA_RESOLUTION_L_DEFAULT;` -/
def ServicesConfig.default : ServicesConfig :=
  { data_resolution_l := int_of_double DATA_RESOLUTION_L_DEFAULT }

/-- The `struct SourceConfig`. -/
structure SourceConfig where
  static_flow_rate : ℚ

/-- The constructor `SourceConfig()`. -/
def SourceConfig.default : SourceConfig :=
  { static_flow_rate := float_of_double STATIC_FLOW_RATE_DEFAULT }

/-- The `struct TankConfig`. -/
structure TankConfig where
  tank_timeout : Int
  shape_type : Int
  dimension_1 : ℚ
  dimension_2 : ℚ
  dimension_3 : ℚ

/-- The constructor `TankConfig()`. -/
def TankConfig.default : TankConfig :=
  { tank_timeout := TANK_TIMEOUT_DEFAULT
    shape_type := TANK_SHAPE_DEFAULT
    dimension_1 := float_of_double TANK_DIMENSION_1_DEFAULT
    dimension_2 := float_of_double TANK_DIMENSION_2_DEFAULT
    dimension_3 := float_of_int TANK_DIMENSION_3_DEFAULT }

/-- The `struct FlowSensorConfig`. -/
structure FlowSensorConfig where
  pulses_per_l : ℚ
  max_flow_rate : ℚ
  min_flow_rate : ℚ

/-- The constructor `FlowSensorConfig()`. -/
def FlowSensorConfig.default : FlowSensorConfig :=
  { pulses_per_l := float_of_double PULSES_PER_L_DEFAULT
    max_flow_rate := float_of_int MAX_FLOW_RATE_DEFAULT
    min_flow_rate := float_of_double MIN_FLOW_RATE_DEFAULT }

/-- The `struct PressureSensorConfig`. -/
structure PressureSensorConfig where
  use_calibration : Bool
  report_mode : Int
  deriving DecidableEq

/-- The constructor `PressureSensorConfig()`. -/
def PressureSensorConfig.default : PressureSensorConfig :=
  { use_calibration := false
    report_mode := PRESSURE_REPORT_MODE }

/-! ## network.cpp: connect_mqtt (lines 138-171) -/

/-- The retry loop of `connect_mqtt` (lines 144-157). `broker i` tells whether
the i-th call of `mqtt_client.connect` succeeds; `calls` counts the calls made
so far and `count` is the local variable of that name. Each iteration uses one
unit of fuel. The result is `none` when the fuel runs out, else the trace of
the loop paired with `true` when the loop condition ended it (a connection
was made) and `false` when the `return false` of line 152 did. -/
def connect_mqtt_loop (mqtt_config : MQTTConfig) (broker : Nat → Bool) :
    Nat → Int → Nat → Option (Bool × List Action)
  | 0, _, _ => none
  | fuel + 1, count, calls =>
    let attempt := Action.connect mqtt_config.id mqtt_config.username mqtt_config.password
    if !(broker (calls + 1)) then
      if count == MQTT_RETRY_TIMEOUT_SECONDS then
        some (false, [attempt, Action.print "*", Action.delay 1000,
                      Action.println "", Action.println "MQTT connection timed out"])
      else
        match connect_mqtt_loop mqtt_config broker fuel (count + 1) (calls + 1) with
        | none => none
        | some (connected, rest) =>
          some (connected, [attempt, Action.print "*", Action.delay 1000] ++ rest)
    else
      some (true, [attempt])

/-- The subscriptions made after a connection (lines 161-167). -/
def connect_mqtt_subscriptions (b : BuildConfig) : List Action :=
  [Action.subscribe DISPENSE_ACTIVATE_TOPIC_,
   Action.subscribe DEACTIVATE_TOPIC_,
   Action.subscribe CONFIG_CHANGE_TOPIC_] ++
  (if USING_DRAIN_VALVE_ b then
    match DRAIN_ACTIVATE_TOPIC_ b with
    | some drain_topic => [Action.subscribe drain_topic]
    | none => []
  else [])

/-- The opening of `connect_mqtt` (lines 141-143), reading the global
`mqtt_config` stored at address `mqtt_config_addr`. The second argument of
`setServer` is `(int)mqtt_config.port`: the array decays to a pointer to its
first element, which the cast turns into an integer. -/
def connect_mqtt_opening (mqtt_config : MQTTConfig) (mqtt_config_addr : Nat) : List Action :=
  [Action.println "Connecting to mqtt server...",
   Action.setServer mqtt_config.domain
     (int_of_pointer (mqtt_config_addr + MQTTConfig.port_offset))]

/-- The function `bool connect_mqtt()`: the returned `bool` and the trace, or `none` when
the fuel runs out. -/
def connect_mqtt (b : BuildConfig) (mqtt_config : MQTTConfig) (mqtt_config_addr : Nat)
    (broker : Nat → Bool) (fuel : Nat) : Option (Bool × List Action) :=
  let count : Int := 1
  match connect_mqtt_loop mqtt_config broker fuel count 0 with
  | none => none
  | some (false, tr) => some (false, connect_mqtt_opening mqtt_config mqtt_config_addr ++ tr)
  | some (true, tr) =>
    some (true, connect_mqtt_opening mqtt_config mqtt_config_addr ++ tr ++
      [Action.println "Successfully connected to mqtt server"] ++
      connect_mqtt_subscriptions b)

/-! ## Observations on traces -/

/-- The `mqtt_client.connect` calls of a trace. -/
def connectCalls (tr : List Action) : List Action :=
  tr.filter (fun a => match a with | .connect _ _ _ => true | _ => false)

/-- The durations of the `delay` calls of a trace, in milliseconds. -/
def delays (tr : List Action) : List Nat :=
  tr.filterMap (fun a => match a with | .delay ms => some ms | _ => none)

/-- The topics a trace subscribes to, in order. -/
def subscribedTopics (tr : List Action) : List String :=
  tr.filterMap (fun a => match a with | .subscribe t => some t | _ => none)

/-- The `(domain, port)` arguments of the `setServer` calls of a trace. -/
def setServerCalls (tr : List Action) : List (String × Int) :=
  tr.filterMap (fun a => match a with | .setServer d p => some (d, p) | _ => none)

/-- The trace of `n` failed connection attempts in a row: each is a `connect`,
a star on the debug output and a delay of one second. -/
def failedAttempts (mqtt_config : MQTTConfig) : Nat → List Action
  | 0 => []
  | n + 1 =>
    [Action.connect mqtt_config.id mqtt_config.username mqtt_config.password,
     Action.print "*", Action.delay 1000] ++ failedAttempts mqtt_config n

/-- The trace of a run of `connect_mqtt` in which the broker refuses every
attempt. -/
def timedOutTrace (cfg : MQTTConfig) (addr : Nat) : List Action :=
  connect_mqtt_opening cfg addr ++
    (failedAttempts cfg 300 ++ [Action.println "", Action.println "MQTT connection timed out"])

/-- The trace of a run of `connect_mqtt` in which attempt `k` is the first
the broker accepts. -/
def connectedTrace (b : BuildConfig) (cfg : MQTTConfig) (addr k : Nat) : List Action :=
  connect_mqtt_opening cfg addr ++
    (failedAttempts cfg (k - 1) ++ [Action.connect cfg.id cfg.username cfg.password]) ++
    [Action.println "Successfully connected to mqtt server"] ++
    connect_mqtt_subscriptions b

/-- The number a string of decimal digits denotes, digit by digit from the
value `acc` read so far; `none` when a character is not a digit. -/
def decimalValueFrom (acc : Nat) : List Char → Option Nat
  | [] => some acc
  | c :: cs =>
    if 48 ≤ c.toNat ∧ c.toNat ≤ 57 then decimalValueFrom (10 * acc + (c.toNat - 48)) cs
    else none

/-- The integer a non-empty decimal string denotes. -/
def decimalValue (s : String) : Option Nat :=
  if s.data = [] then none else decimalValueFrom 0 s.data

/-! # Theorems -/

/-! ## C strings and `strcmp` -/

theorem Char_toNat_inj {c d : Char} (h : c.toNat = d.toNat) : c = d := by
  have := congrArg Char.ofNat h
  simpa using this

theorem Char_toNat_eq_zero {c : Char} : c.toNat = 0 ↔ c = NUL := by
  constructor
  · intro h
    have := congrArg Char.ofNat h
    simpa [NUL] using this
  · intro h
    subst h
    rfl

theorem takeWhile_NUL_cons (cs : List Char) :
    (NUL :: cs).takeWhile (fun c => c != NUL) = [] := by
  simp [List.takeWhile_cons]

theorem takeWhile_ne_cons {c : Char} (hc : c ≠ NUL) (cs : List Char) :
    (c :: cs).takeWhile (fun c => c != NUL) = c :: cs.takeWhile (fun c => c != NUL) := by
  simp [List.takeWhile_cons, hc]

/-- The function `strcmpChars` returns zero exactly when the two buffers agree up to their
first terminators. -/
theorem strcmpChars_eq_zero_iff (xs ys : List Char) :
    strcmpChars xs ys = 0 ↔
      xs.takeWhile (fun c => c != NUL) = ys.takeWhile (fun c => c != NUL) := by
  induction xs generalizing ys with
  | nil =>
    cases ys with
    | nil => simp [strcmpChars]
    | cons d ds =>
      by_cases hd : d = NUL
      · subst hd
        rw [takeWhile_NUL_cons]
        simp [strcmpChars, NUL]
      · have : d.toNat ≠ 0 := fun h => hd (Char_toNat_eq_zero.mp h)
        rw [takeWhile_ne_cons hd]
        simp only [strcmpChars, List.takeWhile_nil]
        constructor
        · intro h; omega
        · intro h; cases h
  | cons c cs ih =>
    cases ys with
    | nil =>
      by_cases hc : c = NUL
      · subst hc
        rw [takeWhile_NUL_cons]
        simp [strcmpChars, NUL]
      · have : c.toNat ≠ 0 := fun h => hc (Char_toNat_eq_zero.mp h)
        rw [takeWhile_ne_cons hc]
        simp only [strcmpChars, List.takeWhile_nil]
        constructor
        · intro h; omega
        · intro h; cases h
    | cons d ds =>
      by_cases hcd : c = d
      · subst hcd
        by_cases hc : c = NUL
        · subst hc
          simp [strcmpChars]
        · rw [takeWhile_ne_cons hc, takeWhile_ne_cons hc]
          simp [strcmpChars, hc, ih]
      · have hne : c.toNat ≠ d.toNat := fun h => hcd (Char_toNat_inj h)
        have hne2 : (c.toNat : Int) - (d.toNat : Int) ≠ 0 := by omega
        have hlhs : strcmpChars (c :: cs) (d :: ds) ≠ 0 := by
          simpa [strcmpChars, hcd] using hne2
        refine ⟨fun h => absurd h hlhs, fun h => ?_⟩
        exfalso
        by_cases hc : c = NUL
        · have hd : d ≠ NUL := fun h => hcd (hc.trans h.symm)
          subst hc
          rw [takeWhile_NUL_cons, takeWhile_ne_cons hd] at h
          cases h
        · by_cases hd : d = NUL
          · subst hd
            rw [takeWhile_NUL_cons, takeWhile_ne_cons hc] at h
            cases h
          · rw [takeWhile_ne_cons hc, takeWhile_ne_cons hd] at h
            exact hcd (List.cons.inj h).1

/-- The test `strcmp(a, b) == 0` holds exactly when `a` and `b` denote the same C string. -/
theorem strcmp_eq_zero_iff (a b : String) : strcmp a b = 0 ↔ cstr a = cstr b := by
  unfold strcmp cstr
  rw [strcmpChars_eq_zero_iff]
  constructor
  · intro h
    rw [h]
  · intro h
    exact congrArg String.data h

/-- A buffer without a terminator inside denotes itself. -/
theorem cstr_eq_self (s : String) (h : NUL ∉ s.data) : cstr s = s := by
  unfold cstr
  have : s.data.takeWhile (fun c => c != NUL) = s.data := by
    rw [List.takeWhile_eq_self_iff]
    intro c hc
    have : c ≠ NUL := fun e => h (e ▸ hc)
    simpa using this
  rw [this]

/-! ## The dispatch of `on_message` in closed form -/

/-- The drain topic, in the configurations that have one. -/
theorem DRAIN_ACTIVATE_TOPIC__of_using (b : BuildConfig) (h : USING_DRAIN_VALVE_ b = true) :
    DRAIN_ACTIVATE_TOPIC_ b = some (BASE_TOPIC ++ DRAIN_ACTIVATE_TOPIC) := by
  simp [DRAIN_ACTIVATE_TOPIC_, h]

/-- The four `if`s of `on_message` amount to one choice among five outcomes,
because the command topics are pairwise different. -/
theorem on_message_dispatch_eq (b : BuildConfig) (topic : String) (payload : List Nat)
    (len : Nat) :
    on_message_dispatch b topic payload len =
      if cstr topic = DISPENSE_ACTIVATE_TOPIC_ then [Action.dispense_activate payload len]
      else if cstr topic = DEACTIVATE_TOPIC_ then [Action.deactivate]
      else if cstr topic = CONFIG_CHANGE_TOPIC_ then [Action.config_change payload len]
      else if USING_DRAIN_VALVE_ b = true ∧ cstr topic = BASE_TOPIC ++ DRAIN_ACTIVATE_TOPIC then
        [Action.drain_activate payload len]
      else [unhandledLine] := by
  have c1 : cstr DISPENSE_ACTIVATE_TOPIC_ = DISPENSE_ACTIVATE_TOPIC_ := by decide
  have c2 : cstr DEACTIVATE_TOPIC_ = DEACTIVATE_TOPIC_ := by decide
  have c3 : cstr CONFIG_CHANGE_TOPIC_ = CONFIG_CHANGE_TOPIC_ := by decide
  have c4 : cstr (BASE_TOPIC ++ DRAIN_ACTIVATE_TOPIC) = BASE_TOPIC ++ DRAIN_ACTIVATE_TOPIC := by
    decide
  have d12 : DISPENSE_ACTIVATE_TOPIC_ ≠ DEACTIVATE_TOPIC_ := by decide
  have d13 : DISPENSE_ACTIVATE_TOPIC_ ≠ CONFIG_CHANGE_TOPIC_ := by decide
  have d14 : DISPENSE_ACTIVATE_TOPIC_ ≠ BASE_TOPIC ++ DRAIN_ACTIVATE_TOPIC := by decide
  have d23 : DEACTIVATE_TOPIC_ ≠ CONFIG_CHANGE_TOPIC_ := by decide
  have d24 : DEACTIVATE_TOPIC_ ≠ BASE_TOPIC ++ DRAIN_ACTIVATE_TOPIC := by decide
  have d34 : CONFIG_CHANGE_TOPIC_ ≠ BASE_TOPIC ++ DRAIN_ACTIVATE_TOPIC := by decide
  have e1 : (strcmp topic DISPENSE_ACTIVATE_TOPIC_ == 0) = decide (cstr topic = DISPENSE_ACTIVATE_TOPIC_) := by
    rw [Bool.eq_iff_iff]; simp [strcmp_eq_zero_iff, c1]
  have e2 : (strcmp topic DEACTIVATE_TOPIC_ == 0) = decide (cstr topic = DEACTIVATE_TOPIC_) := by
    rw [Bool.eq_iff_iff]; simp [strcmp_eq_zero_iff, c2]
  have e3 : (strcmp topic CONFIG_CHANGE_TOPIC_ == 0) = decide (cstr topic = CONFIG_CHANGE_TOPIC_) := by
    rw [Bool.eq_iff_iff]; simp [strcmp_eq_zero_iff, c3]
  have e4 : (strcmp topic (BASE_TOPIC ++ DRAIN_ACTIVATE_TOPIC) == 0) =
      decide (cstr topic = BASE_TOPIC ++ DRAIN_ACTIVATE_TOPIC) := by
    rw [Bool.eq_iff_iff]; simp [strcmp_eq_zero_iff, c4]
  unfold on_message_dispatch
  simp only [e1, e2, e3]
  by_cases hu : USING_DRAIN_VALVE_ b = true
  · rw [DRAIN_ACTIVATE_TOPIC__of_using b hu, hu]
    simp only [e4]
    by_cases h1 : cstr topic = DISPENSE_ACTIVATE_TOPIC_
    · simp [h1, d12, d13, d14]
    · by_cases h2 : cstr topic = DEACTIVATE_TOPIC_
      · simp [h2, d12.symm, d23, d24]
      · by_cases h3 : cstr topic = CONFIG_CHANGE_TOPIC_
        · simp [h3, d13.symm, d23.symm, d34]
        · by_cases h4 : cstr topic = BASE_TOPIC ++ DRAIN_ACTIVATE_TOPIC
          · simp [h4, d14.symm, d24.symm, d34.symm]
          · simp [h1, h2, h3, h4]
  · have hu' : USING_DRAIN_VALVE_ b = false := by simpa using hu
    rw [hu']
    by_cases h1 : cstr topic = DISPENSE_ACTIVATE_TOPIC_
    · simp [h1, d12, d13, d14]
    · by_cases h2 : cstr topic = DEACTIVATE_TOPIC_
      · simp [h2, d12.symm, d23, d24]
      · by_cases h3 : cstr topic = CONFIG_CHANGE_TOPIC_
        · simp [h3, d13.symm, d23.symm, d34]
        · simp [h1, h2, h3]

/-! ## Reservoir flags -/

/-- C3: the derived reservoir flags decode `RESEVOIR_MODE` as documented:
mode 1 gives (source, tank) = (true, false), mode 2 gives (false, true),
mode 3 gives (true, true), so every documented mode enables a reservoir; the
drain-valve and pressure-sensor flags each imply the tank flag and the tank
flag implies the flow-sensor flag, whatever the user switches are; and every
mode outside 1, 2, 3 leaves both reservoir flags false. -/
theorem reservoir_flags_decode_mode (b : BuildConfig) :
    (b.RESEVOIR_MODE = 1 → USING_SOURCE_ b = true ∧ USING_TANK_ b = false) ∧
    (b.RESEVOIR_MODE = 2 → USING_SOURCE_ b = false ∧ USING_TANK_ b = true) ∧
    (b.RESEVOIR_MODE = 3 → USING_SOURCE_ b = true ∧ USING_TANK_ b = true) ∧
    (b.RESEVOIR_MODE = 1 ∨ b.RESEVOIR_MODE = 2 ∨ b.RESEVOIR_MODE = 3 →
      USING_SOURCE_ b = true ∨ USING_TANK_ b = true) ∧
    (USING_DRAIN_VALVE_ b = true → USING_TANK_ b = true) ∧
    (USING_PRESSURE_SENSOR_ b = true → USING_TANK_ b = true) ∧
    (USING_TANK_ b = true → USING_FLOW_SENSOR_ b = true) ∧
    (b.RESEVOIR_MODE ≠ 1 → b.RESEVOIR_MODE ≠ 2 → b.RESEVOIR_MODE ≠ 3 →
      USING_SOURCE_ b = false ∧ USING_TANK_ b = false) := by
  refine ⟨?_, ?_, ?_, ?_, ?_, ?_, ?_, ?_⟩
  · intro h; simp [USING_SOURCE_, USING_TANK_, h]
  · intro h; simp [USING_SOURCE_, USING_TANK_, h]
  · intro h; simp [USING_SOURCE_, USING_TANK_, h]
  · rintro (h | h | h) <;> simp [USING_SOURCE_, USING_TANK_, h]
  · intro h
    by_cases ht : USING_TANK_ b = true
    · exact ht
    · simp [USING_DRAIN_VALVE_, ht] at h
  · intro h
    by_cases ht : USING_TANK_ b = true
    · exact ht
    · simp [USING_PRESSURE_SENSOR_, ht] at h
  · intro h; simp [USING_FLOW_SENSOR_, h]
  · intro h1 h2 h3; simp [USING_SOURCE_, USING_TANK_, h1, h2, h3]

/-- The three documented modes, and mode 0 as a mode outside them, evaluated
with the shipped switches. -/
theorem reservoir_flags_decode_mode_witness :
    (USING_SOURCE_ shippedConfig = true ∧ USING_TANK_ shippedConfig = false) ∧
    (USING_SOURCE_ { shippedConfig with RESEVOIR_MODE := 2 } = false ∧
      USING_TANK_ { shippedConfig with RESEVOIR_MODE := 2 } = true) ∧
    (USING_SOURCE_ { shippedConfig with RESEVOIR_MODE := 3 } = true ∧
      USING_TANK_ { shippedConfig with RESEVOIR_MODE := 3 } = true) ∧
    (USING_SOURCE_ { shippedConfig with RESEVOIR_MODE := 0 } = false ∧
      USING_TANK_ { shippedConfig with RESEVOIR_MODE := 0 } = false) :=
  ⟨(reservoir_flags_decode_mode shippedConfig).1 (by decide),
   (reservoir_flags_decode_mode { shippedConfig with RESEVOIR_MODE := 2 }).2.1 (by decide),
   (reservoir_flags_decode_mode { shippedConfig with RESEVOIR_MODE := 3 }).2.2.1 (by decide),
   (reservoir_flags_decode_mode { shippedConfig with RESEVOIR_MODE := 0 }).2.2.2.2.2.2.2
     (by decide) (by decide) (by decide)⟩

/-! ## Message dispatch -/

theorem handlerCalls_prologue (topic : String) (payload : List Nat) (len : Nat) :
    handlerCalls (on_message_prologue topic payload len) = [] := by
  simp [handlerCalls, on_message_prologue, Action.isHandler]

theorem handlerCalls_on_message (b : BuildConfig) (topic : String) (payload : List Nat)
    (len : Nat) :
    handlerCalls (on_message b topic payload len) =
      handlerCalls (on_message_dispatch b topic payload len) := by
  unfold on_message
  simp only [handlerCalls, List.filter_append]
  have := handlerCalls_prologue topic payload len
  simp only [handlerCalls] at this
  rw [this, List.nil_append]

/-- The handler calls of a message, in closed form. -/
theorem handlerCalls_on_message_eq (b : BuildConfig) (topic : String) (payload : List Nat)
    (len : Nat) :
    handlerCalls (on_message b topic payload len) =
      if cstr topic = DISPENSE_ACTIVATE_TOPIC_ then [Action.dispense_activate payload len]
      else if cstr topic = DEACTIVATE_TOPIC_ then [Action.deactivate]
      else if cstr topic = CONFIG_CHANGE_TOPIC_ then [Action.config_change payload len]
      else if USING_DRAIN_VALVE_ b = true ∧ cstr topic = BASE_TOPIC ++ DRAIN_ACTIVATE_TOPIC then
        [Action.drain_activate payload len]
      else [] := by
  rw [handlerCalls_on_message, on_message_dispatch_eq]
  split_ifs <;> simp [handlerCalls, Action.isHandler, unhandledLine]

/-- C1: for every build configuration, topic buffer, payload and length,
`on_message` calls exactly the handler whose enabled command topic is the
C string the topic buffer denotes: `dispense_activate(payload, len)` iff it is
`BASE_TOPIC "dispense/activate"`, `deactivate()` iff it is
`BASE_TOPIC "deactivate"`, `config_change(payload, len)` iff it is
`BASE_TOPIC "config/change"`, `drain_activate(payload, len)` iff
`USING_DRAIN_VALVE_` holds and it is `BASE_TOPIC "drain/activate"`. The four
topics are pairwise distinct, so the handler calls of a message are at most
one call, and the trace is the prologue, the handler calls, and the line
"Topic is unhandled" exactly when there was no handler call. A topic buffer
with no terminator inside denotes its own content. -/
theorem on_message_invokes_exactly_the_matching_handler (b : BuildConfig) (topic : String)
    (payload : List Nat) (len : Nat) :
    (NUL ∉ topic.data → cstr topic = topic) ∧
    (handlerCalls (on_message b topic payload len) =
        (if cstr topic = DISPENSE_ACTIVATE_TOPIC_ then [Action.dispense_activate payload len]
          else []) ++
        (if cstr topic = DEACTIVATE_TOPIC_ then [Action.deactivate] else []) ++
        (if cstr topic = CONFIG_CHANGE_TOPIC_ then [Action.config_change payload len]
          else []) ++
        (if USING_DRAIN_VALVE_ b = true ∧ cstr topic = BASE_TOPIC ++ DRAIN_ACTIVATE_TOPIC then
          [Action.drain_activate payload len] else [])) ∧
    [DISPENSE_ACTIVATE_TOPIC_, DEACTIVATE_TOPIC_, CONFIG_CHANGE_TOPIC_,
      BASE_TOPIC ++ DRAIN_ACTIVATE_TOPIC].Nodup ∧
    (handlerCalls (on_message b topic payload len)).length ≤ 1 ∧
    on_message b topic payload len =
      on_message_prologue topic payload len ++
        handlerCalls (on_message b topic payload len) ++
        (if handlerCalls (on_message b topic payload len) = [] then [unhandledLine] else []) := by
  have d12 : DISPENSE_ACTIVATE_TOPIC_ ≠ DEACTIVATE_TOPIC_ := by decide
  have d13 : DISPENSE_ACTIVATE_TOPIC_ ≠ CONFIG_CHANGE_TOPIC_ := by decide
  have d14 : DISPENSE_ACTIVATE_TOPIC_ ≠ BASE_TOPIC ++ DRAIN_ACTIVATE_TOPIC := by decide
  have d23 : DEACTIVATE_TOPIC_ ≠ CONFIG_CHANGE_TOPIC_ := by decide
  have d24 : DEACTIVATE_TOPIC_ ≠ BASE_TOPIC ++ DRAIN_ACTIVATE_TOPIC := by decide
  have d34 : CONFIG_CHANGE_TOPIC_ ≠ BASE_TOPIC ++ DRAIN_ACTIVATE_TOPIC := by decide
  refine ⟨cstr_eq_self topic, ?_, by decide, ?_, ?_⟩
  · rw [handlerCalls_on_message_eq]
    by_cases h1 : cstr topic = DISPENSE_ACTIVATE_TOPIC_
    · simp [h1, d12, d13, d14]
    · by_cases h2 : cstr topic = DEACTIVATE_TOPIC_
      · simp [h2, d12.symm, d23, d24]
      · by_cases h3 : cstr topic = CONFIG_CHANGE_TOPIC_
        · simp [h3, d13.symm, d23.symm, d34]
        · simp [h1, h2, h3]
  · rw [handlerCalls_on_message_eq]
    split_ifs <;> simp
  · rw [handlerCalls_on_message_eq]
    unfold on_message
    rw [on_message_dispatch_eq]
    by_cases h1 : cstr topic = DISPENSE_ACTIVATE_TOPIC_
    · simp only [if_pos h1]
      simp
    · simp only [if_neg h1]
      by_cases h2 : cstr topic = DEACTIVATE_TOPIC_
      · simp only [if_pos h2]
        simp
      · simp only [if_neg h2]
        by_cases h3 : cstr topic = CONFIG_CHANGE_TOPIC_
        · simp only [if_pos h3]
          simp
        · simp only [if_neg h3]
          by_cases h4 : USING_DRAIN_VALVE_ b = true ∧
              cstr topic = BASE_TOPIC ++ DRAIN_ACTIVATE_TOPIC
          · simp only [if_pos h4]
            simp
          · simp only [if_neg h4, if_true, List.append_nil]

/-! ## The drain command -/

theorem cstr_drain_topic :
    cstr (BASE_TOPIC ++ DRAIN_ACTIVATE_TOPIC) = BASE_TOPIC ++ DRAIN_ACTIVATE_TOPIC := by
  decide

/-- The trace of a drain-activate message: the drain handler when the build
has the capability, the unhandled line otherwise. -/
theorem on_message_drain_topic (b : BuildConfig) (payload : List Nat) (len : Nat) :
    on_message b (BASE_TOPIC ++ DRAIN_ACTIVATE_TOPIC) payload len =
      on_message_prologue (BASE_TOPIC ++ DRAIN_ACTIVATE_TOPIC) payload len ++
        (if USING_DRAIN_VALVE_ b = true then [Action.drain_activate payload len]
          else [unhandledLine]) := by
  have d14 : BASE_TOPIC ++ DRAIN_ACTIVATE_TOPIC ≠ DISPENSE_ACTIVATE_TOPIC_ := by decide
  have d24 : BASE_TOPIC ++ DRAIN_ACTIVATE_TOPIC ≠ DEACTIVATE_TOPIC_ := by decide
  have d34 : BASE_TOPIC ++ DRAIN_ACTIVATE_TOPIC ≠ CONFIG_CHANGE_TOPIC_ := by decide
  unfold on_message
  rw [on_message_dispatch_eq, cstr_drain_topic, if_neg d14, if_neg d24, if_neg d34]
  simp

/-- C2: a drain command on a build without the drain capability changes
nothing. When `RESEVOIR_MODE = 1` or `USING_DRAIN_VALVE` is false,
`USING_DRAIN_VALVE_` is false and `on_message` on the topic
`BASE_TOPIC "drain/activate"` calls no handler and prints the unhandled line;
when the mode is 2 or 3 and `USING_DRAIN_VALVE` is true, the same message
calls `drain_activate(payload, len)` once and nothing else; the shipped
settings (mode 1, `USING_DRAIN_VALVE` true) give `USING_DRAIN_VALVE_ = false`. -/
theorem drain_command_needs_drain_capability (b : BuildConfig) (payload : List Nat)
    (len : Nat) :
    (b.RESEVOIR_MODE = 1 ∨ b.USING_DRAIN_VALVE = false →
      USING_DRAIN_VALVE_ b = false ∧
      handlerCalls (on_message b (BASE_TOPIC ++ DRAIN_ACTIVATE_TOPIC) payload len) = [] ∧
      on_message b (BASE_TOPIC ++ DRAIN_ACTIVATE_TOPIC) payload len =
        on_message_prologue (BASE_TOPIC ++ DRAIN_ACTIVATE_TOPIC) payload len ++
          [unhandledLine]) ∧
    ((b.RESEVOIR_MODE = 2 ∨ b.RESEVOIR_MODE = 3) ∧ b.USING_DRAIN_VALVE = true →
      USING_DRAIN_VALVE_ b = true ∧
      handlerCalls (on_message b (BASE_TOPIC ++ DRAIN_ACTIVATE_TOPIC) payload len) =
        [Action.drain_activate payload len] ∧
      on_message b (BASE_TOPIC ++ DRAIN_ACTIVATE_TOPIC) payload len =
        on_message_prologue (BASE_TOPIC ++ DRAIN_ACTIVATE_TOPIC) payload len ++
          [Action.drain_activate payload len]) ∧
    (shippedConfig.RESEVOIR_MODE = 1 ∧ shippedConfig.USING_DRAIN_VALVE = true ∧
      USING_DRAIN_VALVE_ shippedConfig = false) := by
  refine ⟨?_, ?_, by decide⟩
  · intro h
    have hu : USING_DRAIN_VALVE_ b = false := by
      rcases h with h | h
      · simp [USING_DRAIN_VALVE_, USING_TANK_, h]
      · simp [USING_DRAIN_VALVE_, h]
    have ht := on_message_drain_topic b payload len
    rw [hu] at ht
    refine ⟨hu, ?_, by simpa using ht⟩
    rw [ht]
    simp [handlerCalls, on_message_prologue, Action.isHandler, unhandledLine]
  · rintro ⟨hm, hd⟩
    have hu : USING_DRAIN_VALVE_ b = true := by
      rcases hm with h | h <;> simp [USING_DRAIN_VALVE_, USING_TANK_, h, hd]
    have ht := on_message_drain_topic b payload len
    rw [hu] at ht
    refine ⟨hu, ?_, by simpa using ht⟩
    rw [ht]
    simp [handlerCalls, on_message_prologue, Action.isHandler]

/-- The shipped build (mode 1) drops the drain command, and the same build
set to mode 3 runs the drain handler once. -/
theorem drain_command_needs_drain_capability_witness :
    on_message shippedConfig (BASE_TOPIC ++ DRAIN_ACTIVATE_TOPIC) [1, 2] 2 =
      on_message_prologue (BASE_TOPIC ++ DRAIN_ACTIVATE_TOPIC) [1, 2] 2 ++ [unhandledLine] ∧
    on_message { shippedConfig with RESEVOIR_MODE := 3 }
        (BASE_TOPIC ++ DRAIN_ACTIVATE_TOPIC) [1, 2] 2 =
      on_message_prologue (BASE_TOPIC ++ DRAIN_ACTIVATE_TOPIC) [1, 2] 2 ++
        [Action.drain_activate [1, 2] 2] :=
  ⟨((drain_command_needs_drain_capability shippedConfig [1, 2] 2).1
      (Or.inl (by decide))).2.2,
   ((drain_command_needs_drain_capability { shippedConfig with RESEVOIR_MODE := 3 } [1, 2] 2).2.1
      ⟨Or.inr (by decide), by decide⟩).2.2⟩

/-! ## The retry loop of `connect_mqtt` -/

theorem connectCalls_append (xs ys : List Action) :
    connectCalls (xs ++ ys) = connectCalls xs ++ connectCalls ys := by
  simp [connectCalls, List.filter_append]

theorem delays_append (xs ys : List Action) : delays (xs ++ ys) = delays xs ++ delays ys := by
  simp [delays, List.filterMap_append]

theorem subscribedTopics_append (xs ys : List Action) :
    subscribedTopics (xs ++ ys) = subscribedTopics xs ++ subscribedTopics ys := by
  simp [subscribedTopics, List.filterMap_append]

theorem setServerCalls_append (xs ys : List Action) :
    setServerCalls (xs ++ ys) = setServerCalls xs ++ setServerCalls ys := by
  simp [setServerCalls, List.filterMap_append]

theorem connectCalls_failedAttempts (cfg : MQTTConfig) (n : Nat) :
    (connectCalls (failedAttempts cfg n)).length = n := by
  induction n with
  | zero => simp [failedAttempts, connectCalls]
  | succ n ih =>
    rw [failedAttempts, connectCalls_append, List.length_append, ih]
    simp [connectCalls]
    omega

theorem delays_failedAttempts (cfg : MQTTConfig) (n : Nat) :
    delays (failedAttempts cfg n) = List.replicate n 1000 := by
  induction n with
  | zero => simp [failedAttempts, delays]
  | succ n ih =>
    rw [failedAttempts, delays_append, ih, List.replicate_succ]
    simp [delays]

theorem subscribedTopics_failedAttempts (cfg : MQTTConfig) (n : Nat) :
    subscribedTopics (failedAttempts cfg n) = [] := by
  induction n with
  | zero => simp [failedAttempts, subscribedTopics]
  | succ n ih =>
    rw [failedAttempts, subscribedTopics_append, ih]
    simp [subscribedTopics]

theorem setServerCalls_failedAttempts (cfg : MQTTConfig) (n : Nat) :
    setServerCalls (failedAttempts cfg n) = [] := by
  induction n with
  | zero => simp [failedAttempts, setServerCalls]
  | succ n ih =>
    rw [failedAttempts, setServerCalls_append, ih]
    simp [setServerCalls]

/-- The loop entered with `calls` attempts behind it, when attempt
`calls + d + 1` is the first to succeed and lies within the timeout: `d`
failed attempts, then the successful one. -/
theorem connect_mqtt_loop_first_success (cfg : MQTTConfig) (broker : Nat → Bool) (d : Nat) :
    ∀ (fuel calls : Nat), calls + d + 1 ≤ 300 → d + 1 ≤ fuel →
      (∀ i, calls < i → i ≤ calls + d → broker i = false) →
      broker (calls + d + 1) = true →
      connect_mqtt_loop cfg broker fuel ((calls + 1 : Nat) : Int) calls =
        some (true, failedAttempts cfg d ++
          [Action.connect cfg.id cfg.username cfg.password]) := by
  induction d with
  | zero =>
    intro fuel calls _ hfuel _ hk
    obtain ⟨f, rfl⟩ : ∃ f, fuel = f + 1 := ⟨fuel - 1, by omega⟩
    simp only [Nat.add_zero] at hk
    simp [connect_mqtt_loop, hk, failedAttempts]
  | succ d ih =>
    intro fuel calls hle hfuel hfail hk
    obtain ⟨f, rfl⟩ : ∃ f, fuel = f + 1 := ⟨fuel - 1, by omega⟩
    have h1 : broker (calls + 1) = false := hfail (calls + 1) (by omega) (by omega)
    have hcount : ¬ (((calls + 1 : Nat) : Int) = MQTT_RETRY_TIMEOUT_SECONDS) := by
      unfold MQTT_RETRY_TIMEOUT_SECONDS
      omega
    have hrec := ih f (calls + 1) (by omega) (by omega)
      (fun i hi hi2 => hfail i (by omega) (by omega))
      (by rw [show calls + 1 + d + 1 = calls + (d + 1) + 1 by omega]; exact hk)
    have hcast : ((calls + 1 : Nat) : Int) + 1 = ((calls + 1 + 1 : Nat) : Int) := by
      push_cast; ring
    rw [connect_mqtt_loop]
    simp only [h1, Bool.not_false, if_true, beq_iff_eq, hcount, if_false, hcast, hrec]
    simp [failedAttempts]

/-- The loop entered with `calls` attempts behind it, when every remaining
attempt up to the 300th fails: it runs the remaining attempts, each followed
by its delay, and returns false. -/
theorem connect_mqtt_loop_all_fail (cfg : MQTTConfig) (broker : Nat → Bool) (m : Nat) :
    ∀ (fuel calls : Nat), calls + m + 1 = 300 → m + 1 ≤ fuel →
      (∀ i, calls < i → i ≤ 300 → broker i = false) →
      connect_mqtt_loop cfg broker fuel ((calls + 1 : Nat) : Int) calls =
        some (false, failedAttempts cfg (m + 1) ++
          [Action.println "", Action.println "MQTT connection timed out"]) := by
  induction m with
  | zero =>
    intro fuel calls hle hfuel hfail
    obtain ⟨f, rfl⟩ : ∃ f, fuel = f + 1 := ⟨fuel - 1, by omega⟩
    have h1 : broker (calls + 1) = false := hfail (calls + 1) (by omega) (by omega)
    have hcount : ((calls + 1 : Nat) : Int) = MQTT_RETRY_TIMEOUT_SECONDS := by
      unfold MQTT_RETRY_TIMEOUT_SECONDS
      omega
    rw [connect_mqtt_loop]
    simp [h1, hcount, failedAttempts]
  | succ m ih =>
    intro fuel calls hle hfuel hfail
    obtain ⟨f, rfl⟩ : ∃ f, fuel = f + 1 := ⟨fuel - 1, by omega⟩
    have h1 : broker (calls + 1) = false := hfail (calls + 1) (by omega) (by omega)
    have hcount : ¬ (((calls + 1 : Nat) : Int) = MQTT_RETRY_TIMEOUT_SECONDS) := by
      unfold MQTT_RETRY_TIMEOUT_SECONDS
      omega
    have hrec := ih f (calls + 1) (by omega) (by omega)
      (fun i hi hi2 => hfail i (by omega) hi2)
    have hcast : ((calls + 1 : Nat) : Int) + 1 = ((calls + 1 + 1 : Nat) : Int) := by
      push_cast; ring
    rw [connect_mqtt_loop]
    simp only [h1, Bool.not_false, if_true, beq_iff_eq, hcount, if_false, hcast, hrec]
    simp [failedAttempts]

/-- Every broker either refuses the first 300 attempts or has a first attempt
among them that it accepts. -/
theorem broker_cases (broker : Nat → Bool) :
    (∀ i, 1 ≤ i → i ≤ 300 → broker i = false) ∨
    (∃ k, 1 ≤ k ∧ k ≤ 300 ∧ broker k = true ∧ ∀ i, 1 ≤ i → i < k → broker i = false) := by
  by_cases h : ∃ k, 1 ≤ k ∧ k ≤ 300 ∧ broker k = true
  · right
    refine ⟨Nat.find h, (Nat.find_spec h).1, (Nat.find_spec h).2.1, (Nat.find_spec h).2.2, ?_⟩
    intro i hi hlt
    have hmin := Nat.find_min h hlt
    have hle := (Nat.find_spec h).2.1
    by_cases hb : broker i = true
    · exact absurd ⟨hi, by omega, hb⟩ hmin
    · simpa using hb
  · left
    intro i hi hle
    by_cases hb : broker i = true
    · exact absurd ⟨i, hi, hle, hb⟩ h
    · simpa using hb

/-- With fuel for 300 iterations the loop of `connect_mqtt` ends, in one of
two ways. -/
theorem connect_mqtt_loop_ends (cfg : MQTTConfig) (broker : Nat → Bool) (extra : Nat) :
    ((∀ i, 1 ≤ i → i ≤ 300 → broker i = false) ∧
      connect_mqtt_loop cfg broker (300 + extra) 1 0 =
        some (false, failedAttempts cfg 300 ++
          [Action.println "", Action.println "MQTT connection timed out"])) ∨
    (∃ k, 1 ≤ k ∧ k ≤ 300 ∧ broker k = true ∧ (∀ i, 1 ≤ i → i < k → broker i = false) ∧
      connect_mqtt_loop cfg broker (300 + extra) 1 0 =
        some (true, failedAttempts cfg (k - 1) ++
          [Action.connect cfg.id cfg.username cfg.password])) := by
  rcases broker_cases broker with h | ⟨k, hk1, hk2, hk, hmin⟩
  · left
    refine ⟨h, ?_⟩
    have := connect_mqtt_loop_all_fail cfg broker 299 (300 + extra) 0 (by omega) (by omega)
      (fun i hi hi2 => h i (by omega) hi2)
    simpa using this
  · right
    refine ⟨k, hk1, hk2, hk, hmin, ?_⟩
    have := connect_mqtt_loop_first_success cfg broker (k - 1) (300 + extra) 0 (by omega)
      (by omega) (fun i hi hi2 => hmin i (by omega) (by omega))
      (by rw [show 0 + (k - 1) + 1 = k by omega]; exact hk)
    simpa using this

/-! ## `connect_mqtt` in closed form -/

theorem connect_mqtt_subscriptions_eq (b : BuildConfig) :
    connect_mqtt_subscriptions b =
      [Action.subscribe DISPENSE_ACTIVATE_TOPIC_, Action.subscribe DEACTIVATE_TOPIC_,
       Action.subscribe CONFIG_CHANGE_TOPIC_] ++
      (if USING_DRAIN_VALVE_ b = true then
        [Action.subscribe (BASE_TOPIC ++ DRAIN_ACTIVATE_TOPIC)] else []) := by
  unfold connect_mqtt_subscriptions
  by_cases hu : USING_DRAIN_VALVE_ b = true
  · rw [DRAIN_ACTIVATE_TOPIC__of_using b hu]
  · simp [hu]

/-- With fuel for 300 iterations `connect_mqtt` returns, in one of two ways. -/
theorem connect_mqtt_ends (b : BuildConfig) (cfg : MQTTConfig) (addr : Nat)
    (broker : Nat → Bool) (extra : Nat) :
    ((∀ i, 1 ≤ i → i ≤ 300 → broker i = false) ∧
      connect_mqtt b cfg addr broker (300 + extra) = some (false, timedOutTrace cfg addr)) ∨
    (∃ k, 1 ≤ k ∧ k ≤ 300 ∧ broker k = true ∧ (∀ i, 1 ≤ i → i < k → broker i = false) ∧
      connect_mqtt b cfg addr broker (300 + extra) =
        some (true, connectedTrace b cfg addr k)) := by
  rcases connect_mqtt_loop_ends cfg broker extra with ⟨h, hl⟩ | ⟨k, hk1, hk2, hk, hmin, hl⟩
  · left
    refine ⟨h, ?_⟩
    unfold connect_mqtt
    simp only [hl, timedOutTrace]
  · right
    refine ⟨k, hk1, hk2, hk, hmin, ?_⟩
    unfold connect_mqtt
    simp only [hl, connectedTrace]

theorem connectCalls_timedOutTrace (cfg : MQTTConfig) (addr : Nat) :
    (connectCalls (timedOutTrace cfg addr)).length = 300 := by
  unfold timedOutTrace
  rw [connectCalls_append, connectCalls_append, List.length_append, List.length_append,
    connectCalls_failedAttempts]
  simp [connectCalls, connect_mqtt_opening]

theorem delays_timedOutTrace (cfg : MQTTConfig) (addr : Nat) :
    delays (timedOutTrace cfg addr) = List.replicate 300 1000 := by
  unfold timedOutTrace
  rw [delays_append, delays_append, delays_failedAttempts]
  have h1 : delays (connect_mqtt_opening cfg addr) = [] := rfl
  have h2 : delays [Action.println "", Action.println "MQTT connection timed out"] = [] := rfl
  rw [h1, h2, List.nil_append, List.append_nil]

theorem subscribedTopics_timedOutTrace (cfg : MQTTConfig) (addr : Nat) :
    subscribedTopics (timedOutTrace cfg addr) = [] := by
  unfold timedOutTrace
  rw [subscribedTopics_append, subscribedTopics_append, subscribedTopics_failedAttempts]
  simp [subscribedTopics, connect_mqtt_opening]

theorem setServerCalls_timedOutTrace (cfg : MQTTConfig) (addr : Nat) :
    setServerCalls (timedOutTrace cfg addr) =
      [(cfg.domain, int_of_pointer (addr + MQTTConfig.port_offset))] := by
  unfold timedOutTrace
  rw [setServerCalls_append, setServerCalls_append, setServerCalls_failedAttempts]
  simp [setServerCalls, connect_mqtt_opening]

theorem connectCalls_connectedTrace (b : BuildConfig) (cfg : MQTTConfig) (addr k : Nat)
    (hk : 1 ≤ k) : (connectCalls (connectedTrace b cfg addr k)).length = k := by
  unfold connectedTrace
  rw [connect_mqtt_subscriptions_eq]
  simp only [connectCalls_append, List.length_append, connectCalls_failedAttempts]
  split_ifs <;> simp [connectCalls, connect_mqtt_opening] <;> omega

theorem delays_connectedTrace (b : BuildConfig) (cfg : MQTTConfig) (addr k : Nat) :
    delays (connectedTrace b cfg addr k) = List.replicate (k - 1) 1000 := by
  unfold connectedTrace
  rw [connect_mqtt_subscriptions_eq]
  simp only [delays_append, delays_failedAttempts]
  split_ifs <;> simp [delays, connect_mqtt_opening]

theorem subscribedTopics_connectedTrace (b : BuildConfig) (cfg : MQTTConfig) (addr k : Nat) :
    subscribedTopics (connectedTrace b cfg addr k) =
      [DISPENSE_ACTIVATE_TOPIC_, DEACTIVATE_TOPIC_, CONFIG_CHANGE_TOPIC_] ++
      (if USING_DRAIN_VALVE_ b = true then [BASE_TOPIC ++ DRAIN_ACTIVATE_TOPIC] else []) := by
  unfold connectedTrace
  rw [connect_mqtt_subscriptions_eq]
  simp only [subscribedTopics_append, subscribedTopics_failedAttempts]
  split_ifs <;> simp [subscribedTopics, connect_mqtt_opening]

theorem setServerCalls_connectedTrace (b : BuildConfig) (cfg : MQTTConfig) (addr k : Nat) :
    setServerCalls (connectedTrace b cfg addr k) =
      [(cfg.domain, int_of_pointer (addr + MQTTConfig.port_offset))] := by
  unfold connectedTrace
  rw [connect_mqtt_subscriptions_eq]
  simp only [setServerCalls_append, setServerCalls_failedAttempts]
  split_ifs <;> simp [setServerCalls, connect_mqtt_opening]

/-- C4: `connect_mqtt` returns whatever the broker does (300 units of fuel
are always enough) and never makes more than `MQTT_RETRY_TIMEOUT_SECONDS`
= 300 attempts. If every attempt fails it returns false after exactly 300
`connect` calls and exactly 300 delays of 1000 ms (300 s in all) and
subscribes to nothing; if attempt `k`, with `1 ≤ k ≤ 300`, is the first to
succeed it returns true after exactly `k` `connect` calls and `k - 1` delays
of 1000 ms. -/
theorem connect_mqtt_times_out_after_300_attempts (b : BuildConfig) (cfg : MQTTConfig)
    (addr : Nat) (broker : Nat → Bool) (extra : Nat) :
    MQTT_RETRY_TIMEOUT_SECONDS = 300 ∧
    ∃ r, connect_mqtt b cfg addr broker (300 + extra) = some r ∧
      (connectCalls r.2).length ≤ 300 ∧
      ((∀ i, 1 ≤ i → i ≤ 300 → broker i = false) →
        r.1 = false ∧ (connectCalls r.2).length = 300 ∧
        delays r.2 = List.replicate 300 1000 ∧ (delays r.2).sum = 300 * 1000 ∧
        subscribedTopics r.2 = []) ∧
      (∀ k, 1 ≤ k → k ≤ 300 → broker k = true →
        (∀ i, 1 ≤ i → i < k → broker i = false) →
        r.1 = true ∧ (connectCalls r.2).length = k ∧
        delays r.2 = List.replicate (k - 1) 1000) := by
  refine ⟨rfl, ?_⟩
  rcases connect_mqtt_ends b cfg addr broker extra with ⟨h, hr⟩ | ⟨k, hk1, hk2, hk, hmin, hr⟩
  · refine ⟨_, hr, ?_, ?_, ?_⟩
    · simp [connectCalls_timedOutTrace]
    · intro _
      refine ⟨rfl, connectCalls_timedOutTrace cfg addr, delays_timedOutTrace cfg addr, ?_,
        subscribedTopics_timedOutTrace cfg addr⟩
      rw [delays_timedOutTrace, List.sum_replicate, smul_eq_mul]
    · intro j hj1 hj2 hj _
      have := h j hj1 hj2
      rw [hj] at this
      cases this
  · refine ⟨_, hr, ?_, ?_, ?_⟩
    · simp only [connectCalls_connectedTrace b cfg addr k hk1]
      exact hk2
    · intro hall
      have := hall k hk1 hk2
      rw [hk] at this
      cases this
    · intro j hj1 hj2 hj hjmin
      have hjk : j = k := by
        rcases Nat.lt_trichotomy j k with hlt | heq | hgt
        · have := hmin j hj1 hlt
          rw [hj] at this
          cases this
        · exact heq
        · have := hjmin k hk1 hgt
          rw [hk] at this
          cases this
      subst hjk
      exact ⟨rfl, connectCalls_connectedTrace b cfg addr j hk1,
        delays_connectedTrace b cfg addr j⟩

/-- A broker that accepts the third attempt, and one that accepts none, on
the shipped build and the default MQTT settings. -/
theorem connect_mqtt_times_out_after_300_attempts_witness :
    (∃ r, connect_mqtt shippedConfig MQTTConfig.default 0 (fun i => i == 3) 300 = some r ∧
      r.1 = true ∧ (connectCalls r.2).length = 3 ∧ delays r.2 = [1000, 1000]) ∧
    (∃ r, connect_mqtt shippedConfig MQTTConfig.default 0 (fun _ => false) 300 = some r ∧
      r.1 = false ∧ (connectCalls r.2).length = 300 ∧ (delays r.2).sum = 300000 ∧
      subscribedTopics r.2 = []) := by
  constructor
  · obtain ⟨r, hr, _, _, hk⟩ :=
      (connect_mqtt_times_out_after_300_attempts shippedConfig MQTTConfig.default 0
        (fun i => i == 3) 0).2
    have h3 := hk 3 (by decide) (by decide) (by decide)
      (fun i h1 h2 => by
        have : i ≠ 3 := by omega
        simpa using this)
    exact ⟨r, hr, h3.1, h3.2.1, by simpa using h3.2.2⟩
  · obtain ⟨r, hr, _, hall, _⟩ :=
      (connect_mqtt_times_out_after_300_attempts shippedConfig MQTTConfig.default 0
        (fun _ => false) 0).2
    have h := hall (fun _ _ _ => rfl)
    exact ⟨r, hr, h.1, h.2.1, h.2.2.2.1, h.2.2.2.2⟩

/-! ## The server port handed to the MQTT client -/

/-- C5 (fails on the code): the port `connect_mqtt` hands to `setServer` is
the address of the `port` buffer, not the number the buffer spells. Wherever
`mqtt_config` is stored and whatever the broker does, there is an MQTT
configuration with a decimal port string for which the one `setServer` call
of `connect_mqtt` carries the configured domain and a port different from the
number that string denotes; the port argument is the same for every content
of the port field. With the default configuration stored at address
`0x3FFE8000` the call is `setServer("192.168.0.195", 1073643620)` while the
port field spells 1883. -/
theorem connect_mqtt_port_is_buffer_address (b : BuildConfig) (addr : Nat)
    (broker : Nat → Bool) (extra : Nat) :
    (∀ cfg : MQTTConfig, ∃ r, connect_mqtt b cfg addr broker (300 + extra) = some r ∧
      setServerCalls r.2 = [(cfg.domain, int_of_pointer (addr + MQTTConfig.port_offset))]) ∧
    (∃ cfg r n, decimalValue cfg.port = some n ∧
      connect_mqtt b cfg addr broker (300 + extra) = some r ∧
      ∃ port, setServerCalls r.2 = [(cfg.domain, port)] ∧ port ≠ (n : Int)) ∧
    (decimalValue MQTTConfig.default.port = some 1883 ∧
      (connect_mqtt shippedConfig MQTTConfig.default 0x3FFE8000 (fun _ => true) 1).map
          (fun r => setServerCalls r.2) =
        some [("192.168.0.195", 1073643620)]) := by
  have hall : ∀ cfg : MQTTConfig, ∃ r, connect_mqtt b cfg addr broker (300 + extra) = some r ∧
      setServerCalls r.2 = [(cfg.domain, int_of_pointer (addr + MQTTConfig.port_offset))] := by
    intro cfg
    rcases connect_mqtt_ends b cfg addr broker extra with ⟨_, hr⟩ | ⟨k, _, _, _, _, hr⟩
    · exact ⟨_, hr, setServerCalls_timedOutTrace cfg addr⟩
    · exact ⟨_, hr, setServerCalls_connectedTrace b cfg addr k⟩
  refine ⟨hall, ?_, by decide, by decide⟩
  by_cases hp : int_of_pointer (addr + MQTTConfig.port_offset) = 1883
  · obtain ⟨r, hr, hs⟩ := hall { MQTTConfig.default with port := "8883" }
    refine ⟨_, r, 8883, by decide, hr, _, hs, ?_⟩
    rw [hp]
    decide
  · obtain ⟨r, hr, hs⟩ := hall MQTTConfig.default
    exact ⟨_, r, 1883, by decide, hr, _, hs, hp⟩

/-! ## The restart and settings-reset topics -/

theorem on_message_unserved_topic (b : BuildConfig) (topic : String) (payload : List Nat)
    (len : Nat) (h1 : cstr topic ≠ DISPENSE_ACTIVATE_TOPIC_)
    (h2 : cstr topic ≠ DEACTIVATE_TOPIC_) (h3 : cstr topic ≠ CONFIG_CHANGE_TOPIC_)
    (h4 : cstr topic ≠ BASE_TOPIC ++ DRAIN_ACTIVATE_TOPIC) :
    on_message b topic payload len = on_message_prologue topic payload len ++ [unhandledLine] := by
  unfold on_message
  rw [on_message_dispatch_eq, if_neg h1, if_neg h2, if_neg h3, if_neg (fun h => h4 h.2)]

/-- C6 (fails on the code): the restart and settings-reset topics are not
served. A run of `connect_mqtt` subscribes to neither
`BASE_TOPIC "restart"` nor `BASE_TOPIC "config/settings_reset"`, on any build
and for any broker, and `on_message` on either topic calls no handler and
prints "Topic is unhandled". -/
theorem restart_and_settings_reset_not_served (b : BuildConfig) (cfg : MQTTConfig)
    (addr : Nat) (broker : Nat → Bool) (extra : Nat) (payload : List Nat) (len : Nat) :
    (∃ r, connect_mqtt b cfg addr broker (300 + extra) = some r ∧
      RESTART_TOPIC_ ∉ subscribedTopics r.2 ∧ SETTINGS_RESET_TOPIC_ ∉ subscribedTopics r.2) ∧
    on_message b RESTART_TOPIC_ payload len =
      on_message_prologue RESTART_TOPIC_ payload len ++ [unhandledLine] ∧
    on_message b SETTINGS_RESET_TOPIC_ payload len =
      on_message_prologue SETTINGS_RESET_TOPIC_ payload len ++ [unhandledLine] := by
  refine ⟨?_, ?_, ?_⟩
  · rcases connect_mqtt_ends b cfg addr broker extra with ⟨_, hr⟩ | ⟨k, _, _, _, _, hr⟩
    · refine ⟨_, hr, ?_, ?_⟩ <;> simp [subscribedTopics_timedOutTrace]
    · refine ⟨_, hr, ?_, ?_⟩
      · simp only [subscribedTopics_connectedTrace]
        split_ifs <;> decide
      · simp only [subscribedTopics_connectedTrace]
        split_ifs <;> decide
  · exact on_message_unserved_topic b _ payload len (by decide) (by decide) (by decide)
      (by decide)
  · exact on_message_unserved_topic b _ payload len (by decide) (by decide) (by decide)
      (by decide)

/-! ## Default runtime configuration -/

/-- C7 (fails on the code): the default `ServicesConfig` does not hold the
resolution 0.2. The field is an `int`, so assigning
`DATA_RESOLUTION_L_DEFAULT` stores 0: the stored value differs from the
constant and is not strictly positive. -/
theorem ServicesConfig_default_resolution_is_zero :
    DATA_RESOLUTION_L_DEFAULT = 2 / 10 ∧
    ServicesConfig.default.data_resolution_l = 0 ∧
    (ServicesConfig.default.data_resolution_l : ℚ) ≠ DATA_RESOLUTION_L_DEFAULT ∧
    ¬ (0 < ServicesConfig.default.data_resolution_l) := by
  have h0 : ServicesConfig.default.data_resolution_l = 0 := by
    simp only [ServicesConfig.default, int_of_double, DATA_RESOLUTION_L_DEFAULT]
    norm_num
  refine ⟨by norm_num [DATA_RESOLUTION_L_DEFAULT], h0, ?_, ?_⟩
  · rw [h0]
    norm_num [DATA_RESOLUTION_L_DEFAULT]
  · rw [h0]
    decide

/-- C8: the default `SourceConfig`, `FlowSensorConfig`, `TankConfig` and
`PressureSensorConfig` lie within the ranges of the data model, constants
read as exact rationals: `static_flow_rate` is 12.45, above 0;
`pulses_per_l` is 1265.289, above 0; `0 < min_flow_rate < max_flow_rate`
(0.2 and 30); `tank_timeout` is 5000, not negative; `shape_type` is 2
(cylinder), one of the shapes 1 and 2; the dimensions are 0.4, 1.2 and 0, none
negative, the two the cylinder uses strictly positive; `report_mode` is 3,
one of 1, 2, 3. -/
theorem default_configs_within_ranges :
    (SourceConfig.default.static_flow_rate = 12.45 ∧
      0 < SourceConfig.default.static_flow_rate) ∧
    (FlowSensorConfig.default.pulses_per_l = 1265.289 ∧
      0 < FlowSensorConfig.default.pulses_per_l) ∧
    (FlowSensorConfig.default.min_flow_rate = 0.2 ∧
      FlowSensorConfig.default.max_flow_rate = 30 ∧
      0 < FlowSensorConfig.default.min_flow_rate ∧
      FlowSensorConfig.default.min_flow_rate < FlowSensorConfig.default.max_flow_rate) ∧
    (TankConfig.default.tank_timeout = 5000 ∧ 0 ≤ TankConfig.default.tank_timeout) ∧
    (TankConfig.default.shape_type = 2 ∧
      (TankConfig.default.shape_type = 1 ∨ TankConfig.default.shape_type = 2)) ∧
    (TankConfig.default.dimension_1 = 0.4 ∧ TankConfig.default.dimension_2 = 1.2 ∧
      TankConfig.default.dimension_3 = 0 ∧
      0 ≤ TankConfig.default.dimension_1 ∧ 0 ≤ TankConfig.default.dimension_2 ∧
      0 ≤ TankConfig.default.dimension_3 ∧
      0 < TankConfig.default.dimension_1 ∧ 0 < TankConfig.default.dimension_2) ∧
    (PressureSensorConfig.default.report_mode = 3 ∧
      (PressureSensorConfig.default.report_mode = 1 ∨
        PressureSensorConfig.default.report_mode = 2 ∨
        PressureSensorConfig.default.report_mode = 3)) := by
  refine ⟨⟨rfl, ?_⟩, ⟨rfl, ?_⟩, ⟨rfl, ?_, ?_, ?_⟩, ⟨rfl, by decide⟩, ⟨rfl, Or.inr rfl⟩,
    ⟨rfl, rfl, ?_, ?_, ?_, ?_, ?_, ?_⟩, ⟨rfl, Or.inr (Or.inr rfl)⟩⟩
  all_goals
    simp only [SourceConfig.default, FlowSensorConfig.default, TankConfig.default,
      float_of_double, float_of_int, STATIC_FLOW_RATE_DEFAULT, PULSES_PER_L_DEFAULT,
      MAX_FLOW_RATE_DEFAULT, MIN_FLOW_RATE_DEFAULT, TANK_DIMENSION_1_DEFAULT,
      TANK_DIMENSION_2_DEFAULT, TANK_DIMENSION_3_DEFAULT]
    norm_num

end IrrigationController
